import Mathlib

/-!
Shallow embedding of `src/debug_helper/pytest_raise_plugin.py`, a pytest
plugin that, when the environment variable `_PYTEST_RAISE` is set to a
value other than `"0"` at module load time, registers two hook overrides
(`pytest_exception_interact` and `pytest_internalerror`, both with
`tryfirst=True`) that re-raise the captured exception object instead of
letting pytest handle it.

Modelling conventions:
* Python exceptions are values of an arbitrary type `ε`; since the hooks
  are polymorphic in `ε` they cannot construct, copy or wrap exceptions,
  so raising the very value received models identity-preserving re-raise.
* A pytest `ExceptionInfo` object is `ExcInfo`: its `value` field is
  `excinfo.value`, its `typeName` field is `excinfo.type.__name__`.
* `call.excinfo` may be `None` in Python; it is an `Option` here, with
  `some` the truthy case of `if call.excinfo:`.
* The ambient process environment at the time a hook runs is passed to the
  hook explicitly (`curEnv`), and each result records in `envReads` how
  many times the body called `os.getenv`; the hook bodies in the source
  (lines 16-29) contain no `os.getenv`, so they record 0 and ignore
  `curEnv`.
* Mutable Python objects are threaded through explicitly: each hook
  returns the final state of every object it received.  The source bodies
  perform no attribute assignment (they only print, raise or return), so
  the translation returns the inputs as received.
* `print(..., file=sys.stderr)` is modelled by accumulating the printed
  line in a `stderr` list.
-/

namespace PytestRaisePlugin

/-- Pytest `ExceptionInfo` object as the source reads it: `value` is the
captured exception object (`excinfo.value`), `typeName` is
`excinfo.type.__name__`. -/
structure ExcInfo (ε : Type) where
  value : ε
  typeName : String

/-- The `call` record passed to `pytest_exception_interact`; the source
only reads its `excinfo` attribute, which is `None` or an `ExceptionInfo`. -/
structure CallRecord (ε : Type) where
  excinfo : Option (ExcInfo ε)

/-- Python values a hook body of this plugin can return: `None` (falling
off the end) or a `bool` literal. -/
inductive PyRet where
  | pyNone
  | pyBool (b : Bool)
deriving DecidableEq

/-- Python truthiness of a `PyRet` value. -/
def PyRet.truthy : PyRet → Bool
  | .pyNone => false
  | .pyBool b => b

/-- Outcome of running a hook body: either a `raise e` statement was
executed with exception object `e`, or the body returned normally. -/
inductive HookResult (ε : Type) where
  | raised (e : ε)
  | returned (r : PyRet)

/-- Full effect of one `pytest_exception_interact` invocation: the
raise/return outcome, the lines printed to stderr, the number of
`os.getenv` calls made by the body, and the final state of the three
objects the hook received. -/
structure InteractOut (ε ν ρ : Type) where
  result : HookResult ε
  stderr : List String
  envReads : Nat
  node : ν
  call : CallRecord ε
  report : ρ

/-- Source lines 15-22.  `curEnv` is the ambient environment at invocation
time; the body never reads it.  Line 18 prints the interception notice;
line 19 tests `if call.excinfo:`; lines 20-21 print and re-raise
`call.excinfo.value` when present; line 22 returns `False` otherwise. -/
def pytest_exception_interact (curEnv : Option String) (node : ν)
    (call : CallRecord ε) (report : ρ) : InteractOut ε ν ρ :=
  let s0 := "_PYTEST_RAISE plugin: Intercepting exception interact hook."
  match call.excinfo with
  | some ei =>
      { result := .raised ei.value
        stderr := [s0,
          "_PYTEST_RAISE plugin: Re-raising exception: " ++ ei.typeName]
        envReads := 0
        node := node
        call := call
        report := report }
  | none =>
      { result := .returned (.pyBool false)
        stderr := [s0]
        envReads := 0
        node := node
        call := call
        report := report }

/-- Full effect of one `pytest_internalerror` invocation. -/
structure InternalOut (ε : Type) where
  result : HookResult ε
  stderr : List String
  envReads : Nat
  excinfo : ExcInfo ε

/-- Source lines 24-29.  `curEnv` is the ambient environment at invocation
time; the body never reads it.  Lines 27-28 print; line 29 re-raises
`excinfo.value` unconditionally. -/
def pytest_internalerror (curEnv : Option String) (excinfo : ExcInfo ε) :
    InternalOut ε :=
  { result := .raised excinfo.value
    stderr := ["_PYTEST_RAISE plugin: Intercepting internal error hook.",
      "_PYTEST_RAISE plugin: Re-raising internal error: " ++ excinfo.typeName]
    envReads := 0
    excinfo := excinfo }

/-- A hook registration made by executing a `@pytest.hookimpl(...)`
decorated `def`: the hook name pytest will look up, and whether the
`tryfirst` flag was passed. -/
structure HookReg where
  name : String
  tryfirst : Bool
deriving DecidableEq

/-- `os.getenv('_PYTEST_RAISE', "0")`: the variable's value, or the
default `"0"` when it is unset. -/
def osGetenvDefault (env : Option String) : String :=
  env.getD "0"

/-- The activation test on source line 12:
`os.getenv('_PYTEST_RAISE', "0") != "0"`. -/
def activeFlag (env : Option String) : Bool :=
  decide (osGetenvDefault env ≠ "0")

/-- Effect of executing the module body once: the hook registrations made,
the lines printed to stderr, and how many times `os.getenv` was called. -/
structure LoadTrace where
  regs : List HookReg
  stderr : List String
  envReads : Nat

/-- Source lines 9-46 (module body), run with `_PYTEST_RAISE` bound to
`env` (`none` = unset).  Line 9 prints; line 11 prints the value of a
first `os.getenv` call; line 12 makes a second `os.getenv` call and
branches on it; lines 15-29 define the two `tryfirst=True` hooks in the
active branch; line 46 prints in the inactive branch.  Every path calls
`os.getenv` exactly twice. -/
def execModule (env : Option String) : LoadTrace :=
  let v1 := osGetenvDefault env
  let s0 := "_PYTEST_RAISE plugin: File execution started."
  let s1 := "_PYTEST_RAISE plugin: Checking _PYTEST_RAISE. Value: " ++ v1
  if activeFlag env then
    { regs := [⟨"pytest_exception_interact", true⟩,
        ⟨"pytest_internalerror", true⟩]
      stderr := [s0, s1,
        "_PYTEST_RAISE plugin: Hooks activated (_PYTEST_RAISE is set)."]
      envReads := 2 }
  else
    { regs := []
      stderr := [s0, s1,
        "_PYTEST_RAISE plugin: Loaded but hooks inactive (_PYTEST_RAISE not set)."]
      envReads := 2 }

/-- Executing the module inside a process that already holds registrations
`regs` appends the module's registrations (the host keeps earlier ones). -/
def loadInto (env : Option String) (regs : List HookReg) : List HookReg :=
  regs ++ (execModule env).regs

/-- Whether a hook with the given lookup name is registered. -/
def registeredHook (regs : List HookReg) (nm : String) : Bool :=
  regs.any fun h => h.name == nm

/-- The host fires the exception-interaction event: if this plugin
registered `pytest_exception_interact`, its body runs; otherwise the event
passes this component by (`none`). -/
def dispatchInteract (regs : List HookReg) (curEnv : Option String)
    (node : ν) (call : CallRecord ε) (report : ρ) :
    Option (InteractOut ε ν ρ) :=
  if registeredHook regs "pytest_exception_interact" then
    some (pytest_exception_interact curEnv node call report)
  else
    none

/-- The host fires the internal-error event: if this plugin registered
`pytest_internalerror`, its body runs; otherwise the event passes this
component by (`none`). -/
def dispatchInternal (regs : List HookReg) (curEnv : Option String)
    (excinfo : ExcInfo ε) : Option (InternalOut ε) :=
  if registeredHook regs "pytest_internalerror" then
    some (pytest_internalerror curEnv excinfo)
  else
    none

/-- C1: when the flag is active, `pytest_exception_interact` is registered
(ahead of normal host report handling), and any invocation whose call
record carries captured exception info raises exactly the captured object
`call.excinfo.value` — the identical value of the arbitrary exception type
`ε`, so no copy or wrapper is possible. -/
theorem interact_reraises_same_object (env curEnv : Option String)
    (hact : activeFlag env = true) (node : ν) (call : CallRecord ε)
    (report : ρ) (ei : ExcInfo ε) (hex : call.excinfo = some ei) :
    registeredHook (execModule env).regs "pytest_exception_interact" = true ∧
    (pytest_exception_interact curEnv node call report).result
      = .raised ei.value := by
  constructor
  · simp [execModule, hact, registeredHook]
  · rcases call with ⟨exc⟩
    cases hex
    rfl

/-- Witness for C1 at `_PYTEST_RAISE = "1"` and a `ValueError`-shaped
exception carrying the value `7`. -/
theorem interact_reraises_same_object_witness :
    activeFlag (some "1") = true ∧
    (registeredHook (execModule (some "1")).regs
        "pytest_exception_interact" = true ∧
      (pytest_exception_interact none ()
          (⟨some ⟨(7 : Nat), "ValueError"⟩⟩ : CallRecord Nat) ()).result
        = .raised 7) :=
  ⟨by decide, interact_reraises_same_object (some "1") none (by decide) ()
    ⟨some ⟨7, "ValueError"⟩⟩ () ⟨7, "ValueError"⟩ rfl⟩

/-- C2: executing the module registers the two hook functions iff
`_PYTEST_RAISE` is set to a value other than the literal `"0"`; when it is
unset or equal to `"0"`, nothing is registered and the component is a
no-op. -/
theorem hooks_defined_iff_flag_set (env : Option String) :
    ((execModule env).regs = [⟨"pytest_exception_interact", true⟩,
        ⟨"pytest_internalerror", true⟩]
      ↔ ∃ v, env = some v ∧ v ≠ "0") ∧
    ((execModule env).regs = [] ↔ env = none ∨ env = some "0") := by
  rcases env with _ | v
  · simp [execModule, activeFlag, osGetenvDefault]
  · by_cases hv : v = "0" <;>
      simp [execModule, activeFlag, osGetenvDefault, hv]

/-- Witness for C2 at the active value `"1"` and the inactive value
`"0"`. -/
theorem hooks_defined_iff_flag_set_witness :
    (((execModule (some "1")).regs = [⟨"pytest_exception_interact", true⟩,
        ⟨"pytest_internalerror", true⟩]
      ↔ ∃ v, (some "1" : Option String) = some v ∧ v ≠ "0") ∧
    ((execModule (some "1")).regs = []
      ↔ (some "1" : Option String) = none ∨ some "1" = some "0")) ∧
    ((execModule (some "0")).regs = []
      ↔ (some "0" : Option String) = none ∨ some "0" = some "0") :=
  ⟨hooks_defined_iff_flag_set (some "1"),
    (hooks_defined_iff_flag_set (some "0")).2⟩

/-- C3: `pytest_internalerror` raises the wrapped error value
`excinfo.value` on every invocation — there is no non-raising branch — and
its whole outcome is independent of everything except the `excinfo`
argument (in particular of the ambient environment). -/
theorem internalerror_always_raises (curEnv curEnv' : Option String)
    (excinfo : ExcInfo ε) :
    (pytest_internalerror curEnv excinfo).result = .raised excinfo.value ∧
    pytest_internalerror curEnv excinfo
      = pytest_internalerror curEnv' excinfo :=
  ⟨rfl, rfl⟩

/-- C4: when the call record carries no captured exception
(`call.excinfo` is `None`, the falsy case), `pytest_exception_interact`
raises nothing: it returns the falsy value `False`. -/
theorem interact_no_excinfo_returns_false (curEnv : Option String)
    (node : ν) (call : CallRecord ε) (report : ρ)
    (hex : call.excinfo = none) :
    (pytest_exception_interact curEnv node call report).result
      = .returned (.pyBool false) ∧
    PyRet.truthy (.pyBool false) = false := by
  rcases call with ⟨exc⟩
  cases hex
  exact ⟨rfl, rfl⟩

/-- Witness for C4 at a call record with no exception info. -/
theorem interact_no_excinfo_returns_false_witness :
    (pytest_exception_interact none () (⟨none⟩ : CallRecord Nat) ()).result
      = .returned (.pyBool false) ∧
    PyRet.truthy (.pyBool false) = false :=
  interact_no_excinfo_returns_false none () ⟨none⟩ () rfl

/-- C5 counterexample: with `_PYTEST_RAISE = "1"` the module body calls
`os.getenv` twice during load — once on line 11 for the diagnostic print
and once on line 12 for the activation branch — not exactly once. -/
theorem env_not_read_exactly_once :
    (execModule (some "1")).envReads = 2 ∧
    (execModule (some "1")).envReads ≠ 1 := by
  decide

/-- C5 (amended): the environment variable is read only at module load
time (exactly twice there) and never from a hook body (zero reads), so
hook invocations dispatched against the load-time registrations give
identical outcomes in two processes that differ only in the value of
`_PYTEST_RAISE` after load. -/
theorem env_frozen_after_load (loadEnv cur₁ cur₂ : Option String)
    (node : ν) (call : CallRecord ε) (report : ρ) (excinfo : ExcInfo ε) :
    (execModule loadEnv).envReads = 2 ∧
    (pytest_exception_interact cur₁ node call report).envReads = 0 ∧
    (pytest_internalerror cur₁ excinfo).envReads = 0 ∧
    dispatchInteract (execModule loadEnv).regs cur₁ node call report
      = dispatchInteract (execModule loadEnv).regs cur₂ node call report ∧
    dispatchInternal (execModule loadEnv).regs cur₁ excinfo
      = dispatchInternal (execModule loadEnv).regs cur₂ excinfo := by
  refine ⟨?_, ?_, rfl, rfl, rfl⟩
  · unfold execModule
    split <;> rfl
  · rcases call with ⟨_ | ei⟩ <;> rfl

/-- C6: neither hook mutates its inputs — `pytest_exception_interact`
finishes with the node, call record and report exactly as received, and
`pytest_internalerror` with the excinfo exactly as received; beyond the
raise, the only effect either body has is its stderr lines (and neither
touches the environment). -/
theorem hooks_mutate_nothing (curEnv : Option String) (node : ν)
    (call : CallRecord ε) (report : ρ) (excinfo : ExcInfo ε) :
    (pytest_exception_interact curEnv node call report).node = node ∧
    (pytest_exception_interact curEnv node call report).call = call ∧
    (pytest_exception_interact curEnv node call report).report = report ∧
    (pytest_internalerror curEnv excinfo).excinfo = excinfo ∧
    (pytest_exception_interact curEnv node call report).envReads = 0 ∧
    (pytest_internalerror curEnv excinfo).envReads = 0 := by
  rcases call with ⟨_ | ei⟩ <;> exact ⟨rfl, rfl, rfl, rfl, rfl, rfl⟩

/-- C7: when the flag is active, exactly the two overrides
`pytest_exception_interact` and `pytest_internalerror` are registered, and
every registration made carries the run-first (`tryfirst=True`) flag. -/
theorem hooks_registered_tryfirst (env : Option String)
    (hact : activeFlag env = true) :
    (execModule env).regs = [⟨"pytest_exception_interact", true⟩,
      ⟨"pytest_internalerror", true⟩] ∧
    ∀ r ∈ (execModule env).regs, r.tryfirst = true := by
  constructor
  · simp [execModule, hact]
  · intro r hr
    simp [execModule, hact] at hr
    rcases hr with rfl | rfl <;> rfl

/-- Witness for C7 at `_PYTEST_RAISE = "1"`. -/
theorem hooks_registered_tryfirst_witness :
    activeFlag (some "1") = true ∧
    ((execModule (some "1")).regs = [⟨"pytest_exception_interact", true⟩,
        ⟨"pytest_internalerror", true⟩] ∧
      ∀ r ∈ (execModule (some "1")).regs, r.tryfirst = true) :=
  ⟨by decide, hooks_registered_tryfirst (some "1") (by decide)⟩

/-- C8: executing the module a second time in the same process changes no
hook outcome — dispatching either event against the registrations left by
two loads gives exactly the result of dispatching after one load, for
every input. -/
theorem double_load_same_behaviour (env : Option String)
    (st : List HookReg) (curEnv : Option String) (node : ν)
    (call : CallRecord ε) (report : ρ) (excinfo : ExcInfo ε) :
    dispatchInteract (loadInto env (loadInto env st)) curEnv node call report
      = dispatchInteract (loadInto env st) curEnv node call report ∧
    dispatchInternal (loadInto env (loadInto env st)) curEnv excinfo
      = dispatchInternal (loadInto env st) curEnv excinfo := by
  have hreg : ∀ nm, registeredHook (loadInto env (loadInto env st)) nm
      = registeredHook (loadInto env st) nm := by
    intro nm
    simp [registeredHook, loadInto, List.any_append, Bool.or_assoc]
  exact ⟨by simp [dispatchInteract, hreg], by simp [dispatchInternal, hreg]⟩

/-- C9: the observable outcome of `pytest_exception_interact` — raise or
return, stderr lines, environment reads — depends only on the `call`
argument: invocations sharing a call record but with arbitrary different
node and report arguments (even of different types) behave identically. -/
theorem interact_reads_only_call (curEnv₁ curEnv₂ : Option String)
    (n₁ : ν₁) (n₂ : ν₂) (call : CallRecord ε) (r₁ : ρ₁) (r₂ : ρ₂) :
    (pytest_exception_interact curEnv₁ n₁ call r₁).result
      = (pytest_exception_interact curEnv₂ n₂ call r₂).result ∧
    (pytest_exception_interact curEnv₁ n₁ call r₁).stderr
      = (pytest_exception_interact curEnv₂ n₂ call r₂).stderr ∧
    (pytest_exception_interact curEnv₁ n₁ call r₁).envReads
      = (pytest_exception_interact curEnv₂ n₂ call r₂).envReads := by
  rcases call with ⟨_ | ei⟩ <;> exact ⟨rfl, rfl, rfl⟩

/-- C10: whenever `pytest_exception_interact` returns instead of raising,
the returned value is exactly `False` — never `True`, `None` or any truthy
value. -/
theorem interact_return_value_is_false (curEnv : Option String) (node : ν)
    (call : CallRecord ε) (report : ρ) (r : PyRet)
    (hret : (pytest_exception_interact curEnv node call report).result
      = .returned r) :
    r = .pyBool false ∧ PyRet.truthy r = false := by
  rcases call with ⟨_ | ei⟩
  · have h : PyRet.pyBool false = r := by
      simpa [pytest_exception_interact] using hret
    cases h
    exact ⟨rfl, rfl⟩
  · exact absurd hret (by simp [pytest_exception_interact])

/-- Witness for C10 at a call record with no exception info. -/
theorem interact_return_value_is_false_witness :
    (pytest_exception_interact none () (⟨none⟩ : CallRecord Nat) ()).result
      = .returned (.pyBool false) ∧
    ((PyRet.pyBool false) = .pyBool false ∧
      PyRet.truthy (.pyBool false) = false) :=
  ⟨rfl, interact_return_value_is_false none () (⟨none⟩ : CallRecord Nat) ()
    (.pyBool false) rfl⟩

end PytestRaisePlugin
